import Mathlib

/-!
Verification of the `pytraccar` Traccar REST-API client (`pytraccar/api.py`).

The client is embedded shallowly: Python JSON values become an inductive
type, dicts become association lists (insertion order preserved), HTTP
responses become a status/json/text record, and each public method of
`TraccarAPI` becomes a function from the client state and the HTTP
response(s) it observes to the successor state and an `Except` result.
Python exceptions (both the library's typed ones and the interpreter-level
`UnboundLocalError` / `IndexError`) are the error side of the `Except`.
-/

/-- Primitive (non-nested) Python/JSON values: `None`, booleans, numbers
and strings. -/
inductive JPrim where
  | null : JPrim
  | bool (b : Bool) : JPrim
  | num (n : Int) : JPrim
  | str (s : String) : JPrim
deriving DecidableEq, Repr

/-- JSON values as they appear inside the records this client builds:
either a primitive or a one-level object (the only nesting the source
produces is the fixed `attributes` object of `create_user`). -/
inductive JValue where
  | prim (p : JPrim) : JValue
  | obj (fields : List (String × JPrim)) : JValue
deriving DecidableEq, Repr

/-- Python truthiness (`not x` tests) restricted to the values the client
inspects: `None`, `False`, `0`, and the empty string are falsy. -/
def pyTruthy : JPrim → Bool
  | .null => false
  | .bool b => b
  | .num n => n != 0
  | .str s => s != ""

/-- An HTTP response as the client observes it: `status_code`,
the parsed body `req.json()` (of whatever shape the endpoint returns),
and the raw body `req.text`. -/
structure HttpResponse (β : Type) where
  status : Nat
  json : β
  text : String

/-- The fixed endpoint-URL table built by `__init__` (`self._urls`). -/
structure UrlTable where
  devices : String
  session : String
  geofences : String
  notifications : String
  reports_events : String
  reports_route : String
  reports_trips : String
  positions : String
  users : String
  groups : String
  permissions : String
deriving DecidableEq, Repr

/-- The mutable state of a `TraccarAPI` instance: the cached session token
`self._token` and the URL table (immutable after construction). -/
structure ClientState where
  token : String
  urls : UrlTable
deriving DecidableEq, Repr

/-- `TraccarAPI.__init__(base_url)`: token starts empty, URL table is
`base_url` plus the fixed paths. -/
def initClient (base_url : String) : ClientState :=
  ⟨"",
   ⟨base_url ++ "/api/devices",
    base_url ++ "/api/session",
    base_url ++ "/api/geofences",
    base_url ++ "/api/notifications",
    base_url ++ "/api/reports/events",
    base_url ++ "/api/reports/route",
    base_url ++ "/api/reports/trips",
    base_url ++ "/api/positions",
    base_url ++ "/api/users",
    base_url ++ "/api/groups",
    base_url ++ "/api/permissions"⟩⟩

/-- The exceptions a method call can raise: the library's typed exception
classes from `pytraccar.exceptions`, plus the two interpreter-level
failures reachable in the source (`UnboundLocalError` in
`set_permissions`, `IndexError` in the update methods). -/
inductive ApiExc where
  | forbiddenAccess : ApiExc
  | invalidToken : ApiExc
  | userPermission : ApiExc
  | objectNotFound (obj : Option JValue) (objType : String) : ApiExc
  | badRequest (message : String) : ApiExc
  | traccarApi (info : String) : ApiExc
  | unboundLocal : ApiExc
  | indexError : ApiExc
deriving DecidableEq, Repr

/-- Python dict assignment `d[k] = v`: replaces the value in place when the
key is present (insertion order kept), appends otherwise. -/
def dictSet (l : List (String × α)) (k : String) (v : α) : List (String × α) :=
  if (l.lookup k).isSome then
    l.map (fun kv => if kv.1 = k then (kv.1, v) else kv)
  else
    l ++ [(k, v)]

/-- The merge comprehension shared by `update_device` and
`update_geofence` (lines 234 and 367):
`{key: value if update.get(key) is None else update[key]
  for key, value in info.items()}`.
`update.get(key) is None` holds when the key is absent from `update` or
bound to `None`, i.e. the lookup is `none` or `some none`. -/
def mergeRecord (update : List (String × Option α)) (info : List (String × α)) :
    List (String × α) :=
  info.map (fun kv =>
    (kv.1, match update.lookup kv.1 with
           | some (some v) => v
           | _ => kv.2))

theorem mergeRecord_lookup (update : List (String × Option α))
    (info : List (String × α)) (k : String) :
    (mergeRecord update info).lookup k =
      (info.lookup k).map (fun v =>
        match update.lookup k with
        | some (some u) => u
        | _ => v) := by
  induction info with
  | nil => rfl
  | cons kv rest ih =>
    by_cases hk : k = kv.1
    · subst hk
      simp [mergeRecord, List.lookup]
    · have hne : (k == kv.1) = false := by
        simp [hk]
      simp only [mergeRecord, List.map_cons, List.lookup, hne] at ih ⊢
      exact ih

theorem mergeRecord_keys (update : List (String × Option α))
    (info : List (String × α)) :
    (mergeRecord update info).map Prod.fst = info.map Prod.fst := by
  simp [mergeRecord]

theorem lookup_eq_none_of_not_mem_keys (l : List (String × α)) (k : String)
    (h : k ∉ l.map Prod.fst) : l.lookup k = none := by
  induction l with
  | nil => rfl
  | cons kv rest ih =>
    simp only [List.map_cons, List.mem_cons] at h
    push_neg at h
    have hne : (k == kv.1) = false := by
      simp [h.1]
    simp only [List.lookup, hne]
    exact ih h.2

/-! ## Session methods -/

/-- The request `login_with_credentials` issues: a POST to the session
URL with form-encoded body `{'email': username, 'password': password}`. -/
def login_with_credentials_request (st : ClientState) (username password : String) :
    String × List (String × String) :=
  (st.urls.session, [("email", username), ("password", password)])

/-- `login_with_credentials`: 200 returns the session JSON, 401 raises
`ForbiddenAccessException`, anything else raises
`TraccarApiException(info=req.text)`. `self._token` is never assigned. -/
def login_with_credentials (st : ClientState) (username password : String)
    (resp : HttpResponse β) : ClientState × Except ApiExc β :=
  (st,
   if resp.status = 200 then .ok resp.json
   else if resp.status = 401 then .error .forbiddenAccess
   else .error (.traccarApi resp.text))

/-- The request `login_with_token` issues: a GET on the session URL with
query parameters `{'token': token}`. -/
def login_with_token_request (st : ClientState) (token : String) :
    String × List (String × String) :=
  (st.urls.session, [("token", token)])

/-- `login_with_token`: on 200 stores the token in `self._token` and
returns the session JSON; on 404 raises `InvalidTokenException`; anything
else raises `TraccarApiException(info=req.text)`. -/
def login_with_token (st : ClientState) (token : String)
    (resp : HttpResponse β) : ClientState × Except ApiExc β :=
  if resp.status = 200 then (⟨token, st.urls⟩, .ok resp.json)
  else if resp.status = 404 then (st, .error .invalidToken)
  else (st, .error (.traccarApi resp.text))

/-! ## Devices -/

/-- `get_all_devices`: GET with `{'all': True}`; 200 returns the JSON,
400 raises `UserPermissionException`, else `TraccarApiException`. -/
def get_all_devices (st : ClientState) (resp : HttpResponse β) :
    ClientState × Except ApiExc β :=
  (st,
   if resp.status = 200 then .ok resp.json
   else if resp.status = 400 then .error .userPermission
   else .error (.traccarApi resp.text))

/-- The request `get_devices` issues: when `query` is falsy (absent,
`None`, or the empty string) a bare GET with no query parameters
(`params` is ignored); otherwise a GET with the single filter
`{query: params}`. -/
def get_devices_request (st : ClientState) (query : Option String)
    (params : Option JValue) : String × Option (List (String × Option JValue)) :=
  match query with
  | none => (st.urls.devices, none)
  | some q => if q = "" then (st.urls.devices, none)
              else (st.urls.devices, some [(q, params)])

/-- `get_devices` response dispatch: 200 returns the JSON list, 400 raises
`ObjectNotFoundException(obj=params, obj_type='Device')`, else
`TraccarApiException`. -/
def get_devices (st : ClientState) (query : Option String) (params : Option JValue)
    (resp : HttpResponse β) : ClientState × Except ApiExc β :=
  (st,
   if resp.status = 200 then .ok resp.json
   else if resp.status = 400 then .error (.objectNotFound params "Device")
   else .error (.traccarApi resp.text))

/-- The JSON body POSTed by `create_device` (source order of the dict
literal, `id = -1` for auto-assignment). The Python defaults are
`group_id=0, phone='', model='', contact='', category=None`. -/
def create_device_body (name unique_id group_id phone model contact category : JPrim) :
    List (String × JPrim) :=
  [("id", .num (-1)),
   ("name", name),
   ("uniqueId", unique_id),
   ("phone", phone),
   ("model", model),
   ("contact", contact),
   ("category", category),
   ("groupId", group_id)]

/-- `create_device` response dispatch: 200 returns the created entity,
400 raises `BadRequestException(message=req.text)`, else
`TraccarApiException`. -/
def create_device (st : ClientState)
    (name unique_id group_id phone model contact category : JPrim)
    (resp : HttpResponse β) : ClientState × Except ApiExc β :=
  (st,
   if resp.status = 200 then .ok resp.json
   else if resp.status = 400 then .error (.badRequest resp.text)
   else .error (.traccarApi resp.text))

/-- The `update` dict of `update_device` (each entry is the caller's
argument, all of which default to `None`). -/
def update_device_update (name unique_id group_id phone model contact category : Option JValue) :
    List (String × Option JValue) :=
  [("name", name),
   ("uniqueId", unique_id),
   ("phone", phone),
   ("model", model),
   ("contact", contact),
   ("category", category),
   ("groupId", group_id)]

/-- The merged record `data` that `update_device` PUTs: the fetched
`device_info` with each key overlaid by the caller's value when that value
is not `None` (line 234). -/
def update_device_data (name unique_id group_id phone model contact category : Option JValue)
    (device_info : List (String × JValue)) : List (String × JValue) :=
  mergeRecord (update_device_update name unique_id group_id phone model contact category)
    device_info

/-- `update_device`: first fetches the current record via
`get_devices(query='id', params=device_id)` and takes element 0 of the
returned list (an `IndexError` if empty), then PUTs the merged record and
dispatches 200 / 400 / other on the PUT response. -/
def update_device (st : ClientState) (device_id : Int)
    (name unique_id group_id phone model contact category : Option JValue)
    (respGet : HttpResponse (List (List (String × JValue))))
    (respPut : HttpResponse β) : ClientState × Except ApiExc β :=
  match (get_devices st (some "id") (some (.prim (.num device_id))) respGet).2 with
  | .error e => (st, .error e)
  | .ok lst =>
    match lst with
    | [] => (st, .error .indexError)
    | _device_info :: _ =>
      (st,
       if respPut.status = 200 then .ok respPut.json
       else if respPut.status = 400 then .error (.badRequest respPut.text)
       else .error (.traccarApi respPut.text))

/-- `delete_device`: DELETE `devices/{id}`; any status other than 204
raises `TraccarApiException`; on 204 nothing is returned. -/
def delete_device (st : ClientState) (device_id : Int)
    (resp : HttpResponse β) : ClientState × Except ApiExc Unit :=
  (st,
   if resp.status ≠ 204 then .error (.traccarApi resp.text)
   else .ok ())

/-! ## Geofences -/

/-- `get_all_geofences`: same dispatch as `get_all_devices`. -/
def get_all_geofences (st : ClientState) (resp : HttpResponse β) :
    ClientState × Except ApiExc β :=
  (st,
   if resp.status = 200 then .ok resp.json
   else if resp.status = 400 then .error .userPermission
   else .error (.traccarApi resp.text))

/-- The request `get_geofences` issues; same shape as
`get_devices_request`. -/
def get_geofences_request (st : ClientState) (query : Option String)
    (params : Option JValue) : String × Option (List (String × Option JValue)) :=
  match query with
  | none => (st.urls.geofences, none)
  | some q => if q = "" then (st.urls.geofences, none)
              else (st.urls.geofences, some [(q, params)])

/-- `get_geofences` response dispatch: 400 raises
`ObjectNotFoundException(obj=params, obj_type='Geofence')`. -/
def get_geofences (st : ClientState) (query : Option String) (params : Option JValue)
    (resp : HttpResponse β) : ClientState × Except ApiExc β :=
  (st,
   if resp.status = 200 then .ok resp.json
   else if resp.status = 400 then .error (.objectNotFound params "Geofence")
   else .error (.traccarApi resp.text))

/-- The JSON body POSTed by `create_geofence`. The method also accepts
`calendarId` and `attributes` parameters (defaults `None`), but the dict
literal it posts contains only `id`, `name`, `description` and
`area = str(area)`. -/
def create_geofence_body (name : JPrim) (area : String) (description : JPrim)
    (_calendarId _attributes : JPrim) : List (String × JPrim) :=
  [("id", .num (-1)),
   ("name", name),
   ("description", description),
   ("area", .str area)]

/-- `create_geofence` response dispatch: 200 / 400 `BadRequestException` /
other `TraccarApiException`. -/
def create_geofence (st : ClientState) (name : JPrim) (area : String)
    (description _calendarId _attributes : JPrim)
    (resp : HttpResponse β) : ClientState × Except ApiExc β :=
  (st,
   if resp.status = 200 then .ok resp.json
   else if resp.status = 400 then .error (.badRequest resp.text)
   else .error (.traccarApi resp.text))

/-- The `update` dict of `update_geofence`. -/
def update_geofence_update (name area description calendarId attributes : Option JValue) :
    List (String × Option JValue) :=
  [("name", name),
   ("area", area),
   ("description", description),
   ("calendarId", calendarId),
   ("attributes", attributes)]

/-- The merged record `data` that `update_geofence` PUTs (line 367). -/
def update_geofence_data (name area description calendarId attributes : Option JValue)
    (geofence_info : List (String × JValue)) : List (String × JValue) :=
  mergeRecord (update_geofence_update name area description calendarId attributes)
    geofence_info

/-- `update_geofence`: fetch via `get_geofences(query='id',
params=geofence_id)`, take element 0, PUT the merged record, dispatch. -/
def update_geofence (st : ClientState) (geofence_id : Int)
    (name area description calendarId attributes : Option JValue)
    (respGet : HttpResponse (List (List (String × JValue))))
    (respPut : HttpResponse β) : ClientState × Except ApiExc β :=
  match (get_geofences st (some "id") (some (.prim (.num geofence_id))) respGet).2 with
  | .error e => (st, .error e)
  | .ok lst =>
    match lst with
    | [] => (st, .error .indexError)
    | _geofence_info :: _ =>
      (st,
       if respPut.status = 200 then .ok respPut.json
       else if respPut.status = 400 then .error (.badRequest respPut.text)
       else .error (.traccarApi respPut.text))

/-- `delete_geofence`: any status other than 204 raises
`TraccarApiException`. -/
def delete_geofence (st : ClientState) (geofence_id : Int)
    (resp : HttpResponse β) : ClientState × Except ApiExc Unit :=
  (st,
   if resp.status ≠ 204 then .error (.traccarApi resp.text)
   else .ok ())

/-! ## Notifications, reports, positions -/

/-- `get_all_notifications`: GET with `{'all': True}`; 200 / 400
`UserPermissionException` / other `TraccarApiException`. -/
def get_all_notifications (st : ClientState) (resp : HttpResponse β) :
    ClientState × Except ApiExc β :=
  (st,
   if resp.status = 200 then .ok resp.json
   else if resp.status = 400 then .error .userPermission
   else .error (.traccarApi resp.text))

/-- The query-parameter dict `get_events` sends: the literal
`{'from': startTime, 'to': endTime, 'groupId': groupId, 'type': event_type}`
followed by `data['type'] = "%"` when `event_type` is falsy and
`data['groupId'] = "1"` when `groupId` is falsy. The `deviceid` argument is
accepted by the method but never placed in the dict. -/
def get_events_params (startTime endTime event_type groupId : JPrim) :
    List (String × JPrim) :=
  let data : List (String × JPrim) :=
    [("from", startTime), ("to", endTime), ("groupId", groupId), ("type", event_type)]
  let data := if pyTruthy event_type then data else dictSet data "type" (.str "%")
  if pyTruthy groupId then data else dictSet data "groupId" (.str "1")

/-- `get_events` response dispatch: 200 / 400 `UserPermissionException` /
other `TraccarApiException`. -/
def get_events (st : ClientState)
    (startTime endTime event_type _deviceid groupId : JPrim)
    (resp : HttpResponse β) : ClientState × Except ApiExc β :=
  (st,
   if resp.status = 200 then .ok resp.json
   else if resp.status = 400 then .error .userPermission
   else .error (.traccarApi resp.text))

/-- `get_positions`: GET with `{'deviceId', 'from', 'to', 'id'}`;
200 / 400 `UserPermissionException` / other `TraccarApiException`. -/
def get_positions (st : ClientState)
    (deviceId startTime endTime position_id : JPrim)
    (resp : HttpResponse β) : ClientState × Except ApiExc β :=
  (st,
   if resp.status = 200 then .ok resp.json
   else if resp.status = 400 then .error .userPermission
   else .error (.traccarApi resp.text))

/-- The query-parameter dict `get_trips` sends, with the same
`groupId`-defaulting assignment as `get_events`. -/
def get_trips_params (startTime endTime groupId : JPrim) :
    List (String × JPrim) :=
  let data : List (String × JPrim) :=
    [("from", startTime), ("to", endTime), ("groupId", groupId)]
  if pyTruthy groupId then data else dictSet data "groupId" (.str "1")

/-- `get_trips` response dispatch. -/
def get_trips (st : ClientState) (startTime endTime _deviceid groupId : JPrim)
    (resp : HttpResponse β) : ClientState × Except ApiExc β :=
  (st,
   if resp.status = 200 then .ok resp.json
   else if resp.status = 400 then .error .userPermission
   else .error (.traccarApi resp.text))

/-! ## Users -/

/-- `get_all_users`: GET with `{'all': True}`; usual dispatch. -/
def get_all_users (st : ClientState) (resp : HttpResponse β) :
    ClientState × Except ApiExc β :=
  (st,
   if resp.status = 200 then .ok resp.json
   else if resp.status = 400 then .error .userPermission
   else .error (.traccarApi resp.text))

/-- The JSON body POSTed by `create_user`: `id = -1`, the caller's fields
(defaults `administrator=False, token=None`), and a hard-coded
`attributes` object `{"speedUnit": "kmh"}`. -/
def create_user_body (name email administrator token : JPrim) :
    List (String × JValue) :=
  [("id", .prim (.num (-1))),
   ("name", .prim name),
   ("email", .prim email),
   ("administrator", .prim administrator),
   ("token", .prim token),
   ("attributes", .obj [("speedUnit", .str "kmh")])]

/-- `create_user` response dispatch: 200 / 400 `BadRequestException` /
other `TraccarApiException`. -/
def create_user (st : ClientState) (name email administrator token : JPrim)
    (resp : HttpResponse β) : ClientState × Except ApiExc β :=
  (st,
   if resp.status = 200 then .ok resp.json
   else if resp.status = 400 then .error (.badRequest resp.text)
   else .error (.traccarApi resp.text))

/-! ## Permissions, groups, route -/

/-- The JSON body `set_permissions` POSTs. The source assigns `data` only
inside `if deviceId != 0` and the nested `if groupId != 0`; when both are
zero no branch assigns it and the subsequent use of `data` raises an
`UnboundLocalError` — modelled as `none`. -/
def set_permissions_payload (userId deviceId groupId : Int) :
    Option (List (String × Int)) :=
  if deviceId ≠ 0 then
    some [("userId", userId), ("deviceId", deviceId)]
  else if groupId ≠ 0 then
    some [("userId", userId), ("groupId", groupId)]
  else
    none

/-- `set_permissions`: POSTs the payload (crashing with
`UnboundLocalError` when it is unassigned); on 204 returns the submitted
`data` dict itself, on 400 raises `BadRequestException(message=req.text)`,
otherwise `TraccarApiException`. -/
def set_permissions (st : ClientState) (userId deviceId groupId : Int)
    (resp : HttpResponse β) : ClientState × Except ApiExc (List (String × Int)) :=
  match set_permissions_payload userId deviceId groupId with
  | none => (st, .error .unboundLocal)
  | some data =>
    (st,
     if resp.status = 204 then .ok data
     else if resp.status = 400 then .error (.badRequest resp.text)
     else .error (.traccarApi resp.text))

/-- `get_groups`: GET with `{'userId': userId}`; usual dispatch. -/
def get_groups (st : ClientState) (userId : JPrim)
    (resp : HttpResponse β) : ClientState × Except ApiExc β :=
  (st,
   if resp.status = 200 then .ok resp.json
   else if resp.status = 400 then .error .userPermission
   else .error (.traccarApi resp.text))

/-- `get_route`: GET with `{'deviceId', 'from', 'to'}`; usual dispatch. -/
def get_route (st : ClientState) (deviceid startTime endTime : JPrim)
    (resp : HttpResponse β) : ClientState × Except ApiExc β :=
  (st,
   if resp.status = 200 then .ok resp.json
   else if resp.status = 400 then .error .userPermission
   else .error (.traccarApi resp.text))

/-! ## The public API surface as one step relation

Every public method of `TraccarAPI`, with its arguments and the HTTP
response(s) it observes during the call, packaged as one operation type so
that state invariants can be stated over the whole API. -/

/-- One call to a public method: its arguments plus the observed HTTP
response(s) (`update_*` issue two requests). -/
inductive Op where
  | login_with_credentials (username password : String) (resp : HttpResponse JValue)
  | login_with_token (token : String) (resp : HttpResponse JValue)
  | get_all_devices (resp : HttpResponse JValue)
  | get_devices (query : Option String) (params : Option JValue)
      (resp : HttpResponse JValue)
  | create_device (name unique_id group_id phone model contact category : JPrim)
      (resp : HttpResponse JValue)
  | update_device (device_id : Int)
      (name unique_id group_id phone model contact category : Option JValue)
      (respGet : HttpResponse (List (List (String × JValue))))
      (respPut : HttpResponse JValue)
  | delete_device (device_id : Int) (resp : HttpResponse JValue)
  | get_all_geofences (resp : HttpResponse JValue)
  | get_geofences (query : Option String) (params : Option JValue)
      (resp : HttpResponse JValue)
  | create_geofence (name : JPrim) (area : String)
      (description calendarId attributes : JPrim) (resp : HttpResponse JValue)
  | update_geofence (geofence_id : Int)
      (name area description calendarId attributes : Option JValue)
      (respGet : HttpResponse (List (List (String × JValue))))
      (respPut : HttpResponse JValue)
  | delete_geofence (geofence_id : Int) (resp : HttpResponse JValue)
  | get_all_notifications (resp : HttpResponse JValue)
  | get_events (startTime endTime event_type deviceid groupId : JPrim)
      (resp : HttpResponse JValue)
  | get_positions (deviceId startTime endTime position_id : JPrim)
      (resp : HttpResponse JValue)
  | get_trips (startTime endTime deviceid groupId : JPrim)
      (resp : HttpResponse JValue)
  | get_all_users (resp : HttpResponse JValue)
  | create_user (name email administrator token : JPrim) (resp : HttpResponse JValue)
  | set_permissions (userId deviceId groupId : Int) (resp : HttpResponse JValue)
  | get_groups (userId : JPrim) (resp : HttpResponse JValue)
  | get_route (deviceid startTime endTime : JPrim) (resp : HttpResponse JValue)

/-- The client state after one public method call: each case projects the
state component of the corresponding method model. -/
def runOp (st : ClientState) : Op → ClientState
  | .login_with_credentials u p r => (login_with_credentials st u p r).1
  | .login_with_token t r => (login_with_token st t r).1
  | .get_all_devices r => (get_all_devices st r).1
  | .get_devices q ps r => (get_devices st q ps r).1
  | .create_device n u g p m c cat r => (create_device st n u g p m c cat r).1
  | .update_device i n u g p m c cat r1 r2 =>
      (update_device st i n u g p m c cat r1 r2).1
  | .delete_device i r => (delete_device st i r).1
  | .get_all_geofences r => (get_all_geofences st r).1
  | .get_geofences q ps r => (get_geofences st q ps r).1
  | .create_geofence n a d c at_ r => (create_geofence st n a d c at_ r).1
  | .update_geofence i n a d c at_ r1 r2 =>
      (update_geofence st i n a d c at_ r1 r2).1
  | .delete_geofence i r => (delete_geofence st i r).1
  | .get_all_notifications r => (get_all_notifications st r).1
  | .get_events s e t d g r => (get_events st s e t d g r).1
  | .get_positions d s e i r => (get_positions st d s e i r).1
  | .get_trips s e d g r => (get_trips st s e d g r).1
  | .get_all_users r => (get_all_users st r).1
  | .create_user n e a t r => (create_user st n e a t r).1
  | .set_permissions u d g r => (set_permissions st u d g r).1
  | .get_groups u r => (get_groups st u r).1
  | .get_route d s e r => (get_route st d s e r).1

/-! ## Claim theorems -/

/-- C1: for every `update_device` / `update_geofence` call on an existing
record, the record submitted via PUT is the fetched current record with
each field overwritten by the caller-supplied value exactly when that
value is non-null, and every field the caller left null (or that the
caller cannot supply at all) is preserved at the server's current value;
in particular `update_device(id, name="X")` on a device whose current
record has `phone="555"` submits a record with `name == "X"` and
`phone == "555"`. -/
theorem update_merge_overrides_only_supplied
    (name unique_id group_id phone model contact category : Option JValue)
    (device_info : List (String × JValue))
    (gname garea gdescription gcalendarId gattributes : Option JValue)
    (geofence_info : List (String × JValue)) :
    (∀ k u,
      (update_device_update name unique_id group_id phone model contact
          category).lookup k = some (some u) →
      (device_info.lookup k).isSome →
      (update_device_data name unique_id group_id phone model contact category
          device_info).lookup k = some u)
    ∧ (∀ k,
        ((update_device_update name unique_id group_id phone model contact
            category).lookup k = some none ∨
         (update_device_update name unique_id group_id phone model contact
            category).lookup k = none) →
        (update_device_data name unique_id group_id phone model contact category
            device_info).lookup k = device_info.lookup k)
    ∧ (∀ k u,
        (update_geofence_update gname garea gdescription gcalendarId
            gattributes).lookup k = some (some u) →
        (geofence_info.lookup k).isSome →
        (update_geofence_data gname garea gdescription gcalendarId gattributes
            geofence_info).lookup k = some u)
    ∧ (∀ k,
        ((update_geofence_update gname garea gdescription gcalendarId
            gattributes).lookup k = some none ∨
         (update_geofence_update gname garea gdescription gcalendarId
            gattributes).lookup k = none) →
        (update_geofence_data gname garea gdescription gcalendarId gattributes
            geofence_info).lookup k = geofence_info.lookup k)
    ∧ (∀ w, device_info.lookup "name" = some w →
        device_info.lookup "phone" = some (.prim (.str "555")) →
        (update_device_data (some (.prim (.str "X"))) none none none none none
            none device_info).lookup "name" = some (.prim (.str "X"))
        ∧ (update_device_data (some (.prim (.str "X"))) none none none none none
            none device_info).lookup "phone" = some (.prim (.str "555"))) := by
  refine ⟨?_, ?_, ?_, ?_, ?_⟩
  · intro k u hk hsome
    rw [update_device_data, mergeRecord_lookup]
    rcases hv : device_info.lookup k with _ | v
    · rw [hv] at hsome; exact absurd hsome (by simp)
    · simp [hk]
  · intro k hk
    rw [update_device_data, mergeRecord_lookup]
    rcases hv : device_info.lookup k with _ | v
    · rfl
    · rcases hk with hk | hk <;> simp [hk]
  · intro k u hk hsome
    rw [update_geofence_data, mergeRecord_lookup]
    rcases hv : geofence_info.lookup k with _ | v
    · rw [hv] at hsome; exact absurd hsome (by simp)
    · simp [hk]
  · intro k hk
    rw [update_geofence_data, mergeRecord_lookup]
    rcases hv : geofence_info.lookup k with _ | v
    · rfl
    · rcases hk with hk | hk <;> simp [hk]
  · intro w hname hphone
    constructor
    · rw [update_device_data, mergeRecord_lookup, hname]
      rfl
    · rw [update_device_data, mergeRecord_lookup, hphone]
      rfl

/-- Witness for C1: a concrete device record `{id: 7, name: "old",
phone: "555"}` updated with `name="X"` only. -/
theorem update_merge_overrides_only_supplied_instance :
    (update_device_data (some (.prim (.str "X"))) none none none none none none
        [("id", .prim (.num 7)), ("name", .prim (.str "old")),
         ("phone", .prim (.str "555"))]).lookup "name"
      = some (.prim (.str "X"))
    ∧ (update_device_data (some (.prim (.str "X"))) none none none none none
        none
        [("id", .prim (.num 7)), ("name", .prim (.str "old")),
         ("phone", .prim (.str "555"))]).lookup "phone"
      = some (.prim (.str "555")) :=
  (update_merge_overrides_only_supplied (some (.prim (.str "X"))) none none none
      none none none
      [("id", .prim (.num 7)), ("name", .prim (.str "old")),
       ("phone", .prim (.str "555"))]
      none none none none none []).2.2.2.2
    (.prim (.str "old")) (by decide) (by decide)

/-- C9: for every `update_device` / `update_geofence` call, the key set of
the merged record submitted to the server is exactly the key set of the
record fetched from the server; a caller-supplied non-null value whose
field name is absent from the fetched record is silently dropped, and no
new keys are ever added. -/
theorem update_merge_key_set_matches_fetched
    (name unique_id group_id phone model contact category : Option JValue)
    (device_info : List (String × JValue))
    (gname garea gdescription gcalendarId gattributes : Option JValue)
    (geofence_info : List (String × JValue)) :
    (update_device_data name unique_id group_id phone model contact category
        device_info).map Prod.fst = device_info.map Prod.fst
    ∧ (∀ k, k ∉ device_info.map Prod.fst →
        (update_device_data name unique_id group_id phone model contact category
            device_info).lookup k = none)
    ∧ (update_geofence_data gname garea gdescription gcalendarId gattributes
        geofence_info).map Prod.fst = geofence_info.map Prod.fst
    ∧ (∀ k, k ∉ geofence_info.map Prod.fst →
        (update_geofence_data gname garea gdescription gcalendarId gattributes
            geofence_info).lookup k = none) := by
  refine ⟨?_, ?_, ?_, ?_⟩
  · exact mergeRecord_keys _ _
  · intro k hk
    apply lookup_eq_none_of_not_mem_keys
    rw [update_device_data, mergeRecord_keys]
    exact hk
  · exact mergeRecord_keys _ _
  · intro k hk
    apply lookup_eq_none_of_not_mem_keys
    rw [update_geofence_data, mergeRecord_keys]
    exact hk

/-- Witness for C9: a caller-supplied non-null `phone="9"` vanishes when
the fetched record `{id: 7, name: "old"}` has no `phone` key. -/
theorem update_merge_key_set_matches_fetched_instance :
    (update_device_data none none none (some (.prim (.str "9"))) none none none
        [("id", .prim (.num 7)), ("name", .prim (.str "old"))]).lookup "phone"
      = none :=
  (update_merge_key_set_matches_fetched none none none
      (some (.prim (.str "9"))) none none none
      [("id", .prim (.num 7)), ("name", .prim (.str "old"))]
      none none none none none []).2.1 "phone" (by decide)

/-- C2: `login_with_token` on status 200 sets the cached token to the
supplied token and returns the session JSON; on 404 it raises
`InvalidTokenException` with the cached token (and whole state) unchanged;
on any other status it raises `TraccarApiException` carrying the response
body, with the state unchanged. -/
theorem login_with_token_status_dispatch (st : ClientState) (token : String)
    (resp : HttpResponse β) :
    (resp.status = 200 →
      login_with_token st token resp = (⟨token, st.urls⟩, .ok resp.json)
      ∧ (login_with_token st token resp).1.token = token)
    ∧ (resp.status = 404 →
      login_with_token st token resp = (st, .error .invalidToken))
    ∧ (resp.status ≠ 200 → resp.status ≠ 404 →
      login_with_token st token resp = (st, .error (.traccarApi resp.text))) := by
  refine ⟨?_, ?_, ?_⟩
  · intro h
    constructor <;> simp [login_with_token, h]
  · intro h
    simp [login_with_token, h]
  · intro h1 h2
    simp [login_with_token, h1, h2]

/-- Witness for C2: a successful token login on a fresh client caches the
token; a 404 leaves it empty. -/
theorem login_with_token_status_dispatch_instance :
    (login_with_token (initClient "http://h") "tok"
        (HttpResponse.mk 200 (JValue.prim .null) "")).1.token = "tok"
    ∧ login_with_token (initClient "http://h") "tok"
        (HttpResponse.mk 404 (JValue.prim .null) "not found")
      = (initClient "http://h", .error .invalidToken) :=
  ⟨((login_with_token_status_dispatch (initClient "http://h") "tok"
      (HttpResponse.mk 200 (JValue.prim .null) "")).1 rfl).2,
   (login_with_token_status_dispatch (initClient "http://h") "tok"
      (HttpResponse.mk 404 (JValue.prim .null) "not found")).2.1 rfl⟩

/-- C6: `login_with_credentials` POSTs the form-encoded body
`{'email': username, 'password': password}` to the session endpoint
(`base_url + "/api/session"`); on status 200 it returns the session JSON,
on 401 it raises `ForbiddenAccessException`, and on any other status it
raises `TraccarApiException` carrying the response body. -/
theorem login_with_credentials_status_dispatch (base : String)
    (st : ClientState) (username password : String) (resp : HttpResponse β) :
    login_with_credentials_request (initClient base) username password
      = (base ++ "/api/session", [("email", username), ("password", password)])
    ∧ (resp.status = 200 →
      login_with_credentials st username password resp = (st, .ok resp.json))
    ∧ (resp.status = 401 →
      login_with_credentials st username password resp
        = (st, .error .forbiddenAccess))
    ∧ (resp.status ≠ 200 → resp.status ≠ 401 →
      login_with_credentials st username password resp
        = (st, .error (.traccarApi resp.text))) := by
  refine ⟨rfl, ?_, ?_, ?_⟩
  · intro h
    simp [login_with_credentials, h]
  · intro h
    simp [login_with_credentials, h]
  · intro h1 h2
    simp [login_with_credentials, h1, h2]

/-- Witness for C6: concrete credential logins at statuses 200, 401 and
500. -/
theorem login_with_credentials_status_dispatch_instance :
    login_with_credentials_request (initClient "http://h") "a@b" "pw"
      = ("http://h" ++ "/api/session", [("email", "a@b"), ("password", "pw")])
    ∧ login_with_credentials (initClient "http://h") "a@b" "pw"
        (HttpResponse.mk 401 (JValue.prim .null) "")
      = (initClient "http://h", .error .forbiddenAccess)
    ∧ login_with_credentials (initClient "http://h") "a@b" "pw"
        (HttpResponse.mk 500 (JValue.prim .null) "boom")
      = (initClient "http://h", .error (.traccarApi "boom")) :=
  ⟨(login_with_credentials_status_dispatch "http://h" (initClient "http://h")
      "a@b" "pw" (HttpResponse.mk 401 (JValue.prim .null) "")).1,
   (login_with_credentials_status_dispatch "http://h" (initClient "http://h")
      "a@b" "pw" (HttpResponse.mk 401 (JValue.prim .null) "")).2.2.1 rfl,
   (login_with_credentials_status_dispatch "http://h" (initClient "http://h")
      "a@b" "pw" (HttpResponse.mk 500 (JValue.prim .null) "boom")).2.2.2
     (by decide) (by decide)⟩

theorem update_device_state_fixed (st : ClientState) (i : Int)
    (n u g p m c cat : Option JValue)
    (r1 : HttpResponse (List (List (String × JValue)))) (r2 : HttpResponse β) :
    (update_device st i n u g p m c cat r1 r2).1 = st := by
  rw [update_device]
  rcases (get_devices st (some "id") (some (.prim (.num i))) r1).2 with e | lst
  · rfl
  · rcases lst with _ | ⟨fst, rest⟩ <;> rfl

theorem update_geofence_state_fixed (st : ClientState) (i : Int)
    (n a d c at_ : Option JValue)
    (r1 : HttpResponse (List (List (String × JValue)))) (r2 : HttpResponse β) :
    (update_geofence st i n a d c at_ r1 r2).1 = st := by
  rw [update_geofence]
  rcases (get_geofences st (some "id") (some (.prim (.num i))) r1).2 with e | lst
  · rfl
  · rcases lst with _ | ⟨fst, rest⟩ <;> rfl

theorem set_permissions_state_fixed (st : ClientState) (u d g : Int)
    (resp : HttpResponse β) :
    (set_permissions st u d g resp).1 = st := by
  rw [set_permissions]
  rcases set_permissions_payload u d g with _ | data <;> rfl

/-- C5: the cached token is the empty string at construction, and the only
public operation that ever changes it is a `login_with_token` call whose
response status is 200 (which sets it to the supplied token); in
particular `login_with_credentials` leaves the cached token unchanged on
every outcome. -/
theorem token_changed_only_by_successful_token_login (base : String)
    (st : ClientState) (op : Op) :
    (initClient base).token = ""
    ∧ ((runOp st op).token ≠ st.token →
        ∃ t r, op = Op.login_with_token t r ∧ r.status = 200
          ∧ (runOp st op).token = t)
    ∧ (∀ (u p : String) (r : HttpResponse JValue),
        (runOp st (Op.login_with_credentials u p r)).token = st.token) := by
  refine ⟨rfl, ?_, fun u p r => rfl⟩
  intro hne
  cases op with
  | login_with_token t r =>
    by_cases h200 : r.status = 200
    · refine ⟨t, r, rfl, h200, ?_⟩
      simp [runOp, login_with_token, h200]
    · exfalso
      apply hne
      by_cases h404 : r.status = 404 <;>
        simp [runOp, login_with_token, h200, h404]
  | update_device i n u g p m c cat r1 r2 =>
    exact absurd (congrArg ClientState.token
      (update_device_state_fixed st i n u g p m c cat r1 r2)) hne
  | update_geofence i n a d c at_ r1 r2 =>
    exact absurd (congrArg ClientState.token
      (update_geofence_state_fixed st i n a d c at_ r1 r2)) hne
  | set_permissions u d g r =>
    exact absurd (congrArg ClientState.token
      (set_permissions_state_fixed st u d g r)) hne
  | login_with_credentials u p r => exact absurd rfl hne
  | get_all_devices r => exact absurd rfl hne
  | get_devices q ps r => exact absurd rfl hne
  | create_device n u g p m c cat r => exact absurd rfl hne
  | delete_device i r => exact absurd rfl hne
  | get_all_geofences r => exact absurd rfl hne
  | get_geofences q ps r => exact absurd rfl hne
  | create_geofence n a d c at_ r => exact absurd rfl hne
  | delete_geofence i r => exact absurd rfl hne
  | get_all_notifications r => exact absurd rfl hne
  | get_events s e t d g r => exact absurd rfl hne
  | get_positions d s e i r => exact absurd rfl hne
  | get_trips s e d g r => exact absurd rfl hne
  | get_all_users r => exact absurd rfl hne
  | create_user n e a t r => exact absurd rfl hne
  | get_groups u r => exact absurd rfl hne
  | get_route d s e r => exact absurd rfl hne

/-- Witness for C5: on a fresh client the only state change a concrete
200 token login produces is the cached token becoming that token. -/
theorem token_changed_only_by_successful_token_login_instance :
    ∃ t r,
      Op.login_with_token "tok" (HttpResponse.mk 200 (JValue.prim .null) "")
        = Op.login_with_token t r
      ∧ r.status = 200
      ∧ (runOp (initClient "http://h")
          (Op.login_with_token "tok"
            (HttpResponse.mk 200 (JValue.prim .null) ""))).token = t :=
  (token_changed_only_by_successful_token_login "http://h"
      (initClient "http://h")
      (Op.login_with_token "tok"
        (HttpResponse.mk 200 (JValue.prim .null) ""))).2.1
    (by decide)

/-- C3: `set_permissions(userId, deviceId=0, groupId=0)` hits no branch
that assigns the request payload: the payload is undefined and the call
fails with the interpreter's unbound-local error, producing no permissions
result and determining no request body. -/
theorem set_permissions_both_zero_unbound (st : ClientState) (userId : Int)
    (resp : HttpResponse β) :
    set_permissions_payload userId 0 0 = none
    ∧ (set_permissions st userId 0 0 resp).2 = .error .unboundLocal
    ∧ (set_permissions st userId 0 0 resp).1 = st := by
  refine ⟨rfl, ?_, ?_⟩ <;> simp [set_permissions, set_permissions_payload]

/-- C7: with exactly one of `deviceId` / `groupId` nonzero,
`set_permissions` POSTs `{userId, deviceId}` resp. `{userId, groupId}`;
on status 204 it returns exactly the submitted mapping and on 400 it
raises `BadRequestException`; in particular
`set_permissions(userId=1, deviceId=2)` sends and returns
`{"userId": 1, "deviceId": 2}`. -/
theorem set_permissions_single_nonzero_payload (st : ClientState)
    (userId deviceId groupId : Int) (resp : HttpResponse β) :
    (deviceId ≠ 0 → groupId = 0 →
      set_permissions_payload userId deviceId groupId
        = some [("userId", userId), ("deviceId", deviceId)])
    ∧ (deviceId = 0 → groupId ≠ 0 →
      set_permissions_payload userId deviceId groupId
        = some [("userId", userId), ("groupId", groupId)])
    ∧ (∀ data, set_permissions_payload userId deviceId groupId = some data →
        (resp.status = 204 →
          (set_permissions st userId deviceId groupId resp).2 = .ok data)
        ∧ (resp.status = 400 →
          (set_permissions st userId deviceId groupId resp).2
            = .error (.badRequest resp.text))) := by
  refine ⟨?_, ?_, ?_⟩
  · intro hd _
    simp [set_permissions_payload, hd]
  · intro hd hg
    simp [set_permissions_payload, hd, hg]
  · intro data hdata
    rw [set_permissions, hdata]
    constructor
    · intro h
      simp [h]
    · intro h
      simp [h]

/-- Witness for C7: `set_permissions(userId=1, deviceId=2)` (groupId at
its zero default) on a 204 response returns
`{"userId": 1, "deviceId": 2}`. -/
theorem set_permissions_single_nonzero_payload_instance :
    set_permissions_payload 1 2 0 = some [("userId", 1), ("deviceId", 2)]
    ∧ (set_permissions (initClient "http://h") 1 2 0
        (HttpResponse.mk 204 (JValue.prim .null) "")).2
      = .ok [("userId", 1), ("deviceId", 2)] :=
  ⟨(set_permissions_single_nonzero_payload (initClient "http://h") 1 2 0
      (HttpResponse.mk 204 (JValue.prim .null) "")).1 (by decide) rfl,
   ((set_permissions_single_nonzero_payload (initClient "http://h") 1 2 0
      (HttpResponse.mk 204 (JValue.prim .null) "")).2.2
      [("userId", 1), ("deviceId", 2)] (by decide)).1 rfl⟩

/-- Counterexample to C4: `create_geofence` called with `calendarId=5`
POSTs a body that does not contain the supplied `calendarId` at all (its
key set is exactly `id, name, description, area`), so the body does not
contain all of the operation's fields. -/
theorem create_geofence_body_omits_calendarId :
    (create_geofence_body (.str "fence") "CIRCLE (1.0 2.0, 30)" (.str "")
        (.num 5) .null).lookup "calendarId" = none
    ∧ (create_geofence_body (.str "fence") "CIRCLE (1.0 2.0, 30)" (.str "")
        (.num 5) .null).lookup "calendarId" ≠ some (.num 5)
    ∧ (create_geofence_body (.str "fence") "CIRCLE (1.0 2.0, 30)" (.str "")
        (.num 5) .null).map Prod.fst = ["id", "name", "description", "area"] := by
  refine ⟨rfl, ?_, rfl⟩
  decide

/-- C4 (amended): `create_device` and `create_user` POST a body with
`id = -1` plus all their parameter fields (unset optional fields going out
as null/empty Python defaults; `create_user` additionally sends the fixed
`attributes` object `{"speedUnit": "kmh"}`), while `create_geofence`'s
body holds only `id = -1`, `name`, `description` and `area` — its
`calendarId` and `attributes` parameters are never included; for all
three, status 200 returns the created entity JSON, 400 raises
`BadRequestException` carrying the response body, and any other status
raises the generic `TraccarApiException`. -/
theorem create_ops_body_and_dispatch (st : ClientState)
    (name unique_id group_id phone model contact category : JPrim)
    (gname : JPrim) (area : String) (description calendarId attributes : JPrim)
    (uname email administrator token : JPrim) (resp : HttpResponse β) :
    ((create_device_body name unique_id group_id phone model contact
        category).lookup "id" = some (.num (-1))
      ∧ (create_device_body name unique_id group_id phone model contact
          category).lookup "name" = some name
      ∧ (create_device_body name unique_id group_id phone model contact
          category).lookup "uniqueId" = some unique_id
      ∧ (create_device_body name unique_id group_id phone model contact
          category).lookup "phone" = some phone
      ∧ (create_device_body name unique_id group_id phone model contact
          category).lookup "model" = some model
      ∧ (create_device_body name unique_id group_id phone model contact
          category).lookup "contact" = some contact
      ∧ (create_device_body name unique_id group_id phone model contact
          category).lookup "category" = some category
      ∧ (create_device_body name unique_id group_id phone model contact
          category).lookup "groupId" = some group_id)
    ∧ ((create_geofence_body gname area description calendarId
          attributes).map Prod.fst = ["id", "name", "description", "area"]
      ∧ (create_geofence_body gname area description calendarId
          attributes).lookup "id" = some (.num (-1))
      ∧ (create_geofence_body gname area description calendarId
          attributes).lookup "name" = some gname
      ∧ (create_geofence_body gname area description calendarId
          attributes).lookup "description" = some description
      ∧ (create_geofence_body gname area description calendarId
          attributes).lookup "area" = some (.str area)
      ∧ (create_geofence_body gname area description calendarId
          attributes).lookup "calendarId" = none
      ∧ (create_geofence_body gname area description calendarId
          attributes).lookup "attributes" = none)
    ∧ ((create_user_body uname email administrator token).lookup "id"
          = some (.prim (.num (-1)))
      ∧ (create_user_body uname email administrator token).lookup "name"
          = some (.prim uname)
      ∧ (create_user_body uname email administrator token).lookup "email"
          = some (.prim email)
      ∧ (create_user_body uname email administrator token).lookup
          "administrator" = some (.prim administrator)
      ∧ (create_user_body uname email administrator token).lookup "token"
          = some (.prim token)
      ∧ (create_user_body uname email administrator token).lookup "attributes"
          = some (.obj [("speedUnit", .str "kmh")]))
    ∧ (resp.status = 200 →
        (create_device st name unique_id group_id phone model contact category
            resp).2 = .ok resp.json
        ∧ (create_geofence st gname area description calendarId attributes
            resp).2 = .ok resp.json
        ∧ (create_user st uname email administrator token resp).2
            = .ok resp.json)
    ∧ (resp.status = 400 →
        (create_device st name unique_id group_id phone model contact category
            resp).2 = .error (.badRequest resp.text)
        ∧ (create_geofence st gname area description calendarId attributes
            resp).2 = .error (.badRequest resp.text)
        ∧ (create_user st uname email administrator token resp).2
            = .error (.badRequest resp.text))
    ∧ (resp.status ≠ 200 → resp.status ≠ 400 →
        (create_device st name unique_id group_id phone model contact category
            resp).2 = .error (.traccarApi resp.text)
        ∧ (create_geofence st gname area description calendarId attributes
            resp).2 = .error (.traccarApi resp.text)
        ∧ (create_user st uname email administrator token resp).2
            = .error (.traccarApi resp.text)) := by
  refine ⟨⟨rfl, rfl, rfl, rfl, rfl, rfl, rfl, rfl⟩,
          ⟨rfl, rfl, rfl, rfl, rfl, rfl, rfl⟩,
          ⟨rfl, rfl, rfl, rfl, rfl, rfl⟩, ?_, ?_, ?_⟩
  · intro h
    refine ⟨?_, ?_, ?_⟩ <;> simp [create_device, create_geofence, create_user, h]
  · intro h
    refine ⟨?_, ?_, ?_⟩ <;> simp [create_device, create_geofence, create_user, h]
  · intro h1 h2
    refine ⟨?_, ?_, ?_⟩ <;>
      simp [create_device, create_geofence, create_user, h1, h2]

/-- Witness for C4 (amended): the three create operations at status 400
raise `BadRequestException` carrying the response body. -/
theorem create_ops_body_and_dispatch_instance :
    (create_device (initClient "http://h") (.str "dev") (.str "u1") (.num 0)
        (.str "") (.str "") (.str "") .null
        (HttpResponse.mk 400 (JValue.prim .null) "dup")).2
      = .error (.badRequest "dup")
    ∧ (create_geofence (initClient "http://h") (.str "fence") "AREA" (.str "")
        .null .null (HttpResponse.mk 400 (JValue.prim .null) "dup")).2
      = .error (.badRequest "dup")
    ∧ (create_user (initClient "http://h") (.str "n") (.str "e@x")
        (.bool false) .null (HttpResponse.mk 400 (JValue.prim .null) "dup")).2
      = .error (.badRequest "dup") :=
  (create_ops_body_and_dispatch (initClient "http://h") (.str "dev") (.str "u1")
      (.num 0) (.str "") (.str "") (.str "") .null (.str "fence") "AREA"
      (.str "") .null .null (.str "n") (.str "e@x") (.bool false) .null
      (HttpResponse.mk 400 (JValue.prim .null) "dup")).2.2.2.2.1 rfl

/-- Counterexample to C8: with both parameters supplied —
`event_type=""` (a falsy string) and `groupId="5"` — the sent `type` is
the wildcard `"%"`, not the caller's value `""`. -/
theorem get_events_falsy_supplied_type_replaced :
    (get_events_params (.str "2020-01-01") (.str "2020-01-02") (.str "")
        (.str "5")).lookup "type" = some (.str "%")
    ∧ (get_events_params (.str "2020-01-01") (.str "2020-01-02") (.str "")
        (.str "5")).lookup "type" ≠ some (.str "") := by
  refine ⟨rfl, ?_⟩
  decide

/-- C8 (amended): `get_events` sends `type = "%"` when `event_type` is not
supplied (and more generally whenever it is falsy) and `groupId = "1"`
when `groupId` is not supplied (and more generally whenever it is falsy);
when both are supplied with truthy values the caller's values are sent. -/
theorem get_events_param_defaults (startTime endTime event_type groupId : JPrim) :
    (get_events_params startTime endTime .null groupId).lookup "type"
      = some (.str "%")
    ∧ (get_events_params startTime endTime event_type .null).lookup "groupId"
      = some (.str "1")
    ∧ (pyTruthy event_type = true → pyTruthy groupId = true →
        (get_events_params startTime endTime event_type groupId).lookup "type"
          = some event_type
        ∧ (get_events_params startTime endTime event_type groupId).lookup
            "groupId" = some groupId)
    ∧ (pyTruthy event_type = false →
        (get_events_params startTime endTime event_type groupId).lookup "type"
          = some (.str "%"))
    ∧ (pyTruthy groupId = false →
        (get_events_params startTime endTime event_type groupId).lookup
          "groupId" = some (.str "1")) := by
  have hnull : pyTruthy JPrim.null = false := rfl
  refine ⟨?_, ?_, ?_, ?_, ?_⟩
  · by_cases hg : pyTruthy groupId <;>
      simp [get_events_params, hnull, hg, dictSet, List.lookup]
  · by_cases ht : pyTruthy event_type <;>
      simp [get_events_params, hnull, ht, dictSet, List.lookup]
  · intro ht hg
    constructor <;> simp [get_events_params, ht, hg, List.lookup]
  · intro ht
    by_cases hg : pyTruthy groupId <;>
      simp [get_events_params, ht, hg, dictSet, List.lookup]
  · intro hg
    by_cases ht : pyTruthy event_type <;>
      simp [get_events_params, ht, hg, dictSet, List.lookup]

/-- Witness for C8 (amended): truthy supplied values pass through, falsy
`event_type` is replaced by `"%"`. -/
theorem get_events_param_defaults_instance :
    (get_events_params (.str "2020-01-01") (.str "2020-01-02")
        (.str "deviceOnline") (.str "5")).lookup "type"
      = some (.str "deviceOnline")
    ∧ (get_events_params (.str "2020-01-01") (.str "2020-01-02")
        (.str "deviceOnline") (.str "5")).lookup "groupId" = some (.str "5")
    ∧ (get_events_params (.str "2020-01-01") (.str "2020-01-02") (.str "")
        (.str "5")).lookup "type" = some (.str "%") :=
  ⟨((get_events_param_defaults (.str "2020-01-01") (.str "2020-01-02")
      (.str "deviceOnline") (.str "5")).2.2.1 (by decide) (by decide)).1,
   ((get_events_param_defaults (.str "2020-01-01") (.str "2020-01-02")
      (.str "deviceOnline") (.str "5")).2.2.1 (by decide) (by decide)).2,
   (get_events_param_defaults (.str "2020-01-01") (.str "2020-01-02")
      (.str "") (.str "5")).2.2.2.1 (by decide)⟩

/-- C10: when `get_devices` / `get_geofences` is called with a falsy
`query` (absent, `None`, or the empty string), the GET request carries no
query parameters at all and the `params` argument is ignored, whatever it
is. -/
theorem falsy_query_sends_no_params (st : ClientState) (query : Option String)
    (params : Option JValue) (h : query = none ∨ query = some "") :
    (get_devices_request st query params).2 = none
    ∧ (get_geofences_request st query params).2 = none := by
  rcases h with h | h <;> subst h <;> exact ⟨rfl, rfl⟩

/-- Witness for C10: an empty-string query with a supplied `params=5` still
produces a parameterless request. -/
theorem falsy_query_sends_no_params_instance :
    (get_devices_request (initClient "http://h") (some "")
        (some (.prim (.num 5)))).2 = none
    ∧ (get_geofences_request (initClient "http://h") (some "")
        (some (.prim (.num 5)))).2 = none :=
  falsy_query_sends_no_params (initClient "http://h") (some "")
    (some (.prim (.num 5))) (Or.inr rfl)
